import Mathlib

/-!
Shallow embedding of the `ImpactModel` component of the reforest-nyc
repository (`cpp/src/impact_model.cpp`, `cpp/include/impact_model.h`).

Modelling decisions:
* C++ `double` values are modelled as exact rationals (`ℚ`).
* A parsed JSON artifact document is a record of optional fields: a field is
  `some` exactly when the key is present and, for array fields, is an array
  of numbers.
* The input to `loadModel` is `Option ModelSource`: `none` models a file
  that cannot be opened (the early-return branch at impact_model.cpp:20-23).
* Unchecked C++ `operator[]` indexing is modelled with `List.getD _ 0`; a
  second, `Option`-valued variant (`normalizeChecked` / `predictChecked`)
  makes every element access fallible so that in-bounds execution can be
  stated and proved.
-/

/-- A parsed model-artifact document. Each field is `some` exactly when the
corresponding JSON key (`coef`, `intercept`, `scaler_mean`, `scaler_scale`)
is present with the expected shape. -/
structure ModelSource where
  coef : Option (List ℚ)
  intercept : Option ℚ
  scaler_mean : Option (List ℚ)
  scaler_scale : Option (List ℚ)
deriving DecidableEq

/-- The private state of the C++ `ImpactModel` class
(impact_model.h lines 23-29). -/
structure ImpactModel where
  loaded_ : Bool
  n_features_ : ℕ
  coefficients_ : List ℚ
  intercept_ : ℚ
  scaler_mean_ : List ℚ
  scaler_scale_ : List ℚ
deriving DecidableEq

/-- The default constructor (impact_model.cpp lines 11-12): `loaded_ = false`,
`n_features_ = 0`, `intercept_ = 0`, vectors default-constructed empty. -/
def initState : ImpactModel :=
  { loaded_ := false, n_features_ := 0, coefficients_ := [],
    intercept_ := 0, scaler_mean_ := [], scaler_scale_ := [] }

/-- `ImpactModel::isLoaded` (impact_model.h line 21). -/
def isLoaded (m : ImpactModel) : Bool := m.loaded_

/-- `ImpactModel::getNumFeatures` (impact_model.h line 20). -/
def getNumFeatures (m : ImpactModel) : ℕ := m.n_features_

/-- `ImpactModel::loadModel` (impact_model.cpp lines 17-73). Returns the
C++ return value paired with the state after the call. `none` input models
an unopenable file; for a parsed document each present key
clears-and-repopulates its field, then `n_features_` is set to the
coefficient count and the dimension validation runs; `loaded_` is assigned
only on the success path. -/
def loadModel (m : ImpactModel) (input : Option ModelSource) :
    Bool × ImpactModel :=
  match input with
  | none => (false, m)
  | some j =>
    let m1 := match j.coef with
      | some cs => { m with coefficients_ := cs }
      | none => m
    let m2 := match j.intercept with
      | some v => { m1 with intercept_ := v }
      | none => m1
    let m3 := match j.scaler_mean with
      | some v => { m2 with scaler_mean_ := v }
      | none => m2
    let m4 := match j.scaler_scale with
      | some v => { m3 with scaler_scale_ := v }
      | none => m3
    let m5 := { m4 with n_features_ := m4.coefficients_.length }
    if m5.n_features_ = 0 ∨ m5.scaler_mean_.length ≠ m5.n_features_ ∨
        m5.scaler_scale_.length ≠ m5.n_features_ then
      (false, m5)
    else
      (true, { m5 with loaded_ := true })

/-- Body of the loop of `ImpactModel::normalize`
(impact_model.cpp lines 78-84): the standardized value of feature `i`. -/
def normElem (m : ImpactModel) (features : List ℚ) (i : ℕ) : ℚ :=
  if (1e-6 : ℚ) < m.scaler_scale_.getD i 0 then
    (features.getD i 0 - m.scaler_mean_.getD i 0) / m.scaler_scale_.getD i 0
  else 0

/-- `ImpactModel::normalize` (impact_model.cpp lines 75-87): a vector of
`n_features_` standardized values. -/
def ImpactModel.normalize (m : ImpactModel) (features : List ℚ) : List ℚ :=
  (List.range m.n_features_).map (normElem m features)

/-- `ImpactModel::predict` (impact_model.cpp lines 89-111): sentinel `0.0`
when unloaded or on feature-count mismatch; otherwise the affine combination
of the normalized features, accumulated in index order. -/
def predict (m : ImpactModel) (features : List ℚ) : ℚ :=
  if m.loaded_ = false then 0
  else if features.length ≠ m.n_features_ then 0
  else
    let normalized := m.normalize features
    (List.range normalized.length).foldl
      (fun acc i => acc + m.coefficients_.getD i 0 * normalized.getD i 0)
      m.intercept_

/-- `Option`-valued variant of `normalize`: every C++ `operator[]` element
access becomes a fallible `List.get?`, in the order the source reads them
(`scaler_scale_[i]` for the guard, then `features[i]`, `scaler_mean_[i]`,
`scaler_scale_[i]` in the taken branch). -/
def normalizeChecked (m : ImpactModel) (features : List ℚ) :
    Option (List ℚ) :=
  (List.range m.n_features_).mapM (fun i => do
    let s ← m.scaler_scale_.get? i
    if (1e-6 : ℚ) < s then do
      let f ← features.get? i
      let mu ← m.scaler_mean_.get? i
      pure ((f - mu) / s)
    else
      pure 0)

/-- `Option`-valued variant of `predict`: `none` exactly when some vector
access of the C++ code would be out of bounds. -/
def predictChecked (m : ImpactModel) (features : List ℚ) : Option ℚ :=
  if m.loaded_ = false then some 0
  else if features.length ≠ m.n_features_ then some 0
  else do
    let normalized ← normalizeChecked m features
    (List.range normalized.length).foldlM
      (fun acc i => do
        let c ← m.coefficients_.get? i
        let x ← normalized.get? i
        pure (acc + c * x))
      m.intercept_

/-- The public operations of the component, for statements about call
sequences. -/
inductive Op where
  | load (input : Option ModelSource)
  | pred (features : List ℚ)
deriving DecidableEq

/-- State effect of one public call: `loadModel` updates the state,
`predict` reads it only. -/
def step (m : ImpactModel) (op : Op) : ImpactModel :=
  match op with
  | Op.load input => (loadModel m input).2
  | Op.pred _ => m

/-- State after a sequence of public calls. -/
def run (m : ImpactModel) (ops : List Op) : ImpactModel :=
  ops.foldl step m

/-- The §8 known-value artifact: `coef=[2.0]`, `intercept=1.0`,
`scaler_mean=[0.0]`, `scaler_scale=[1.0]`. -/
def srcKnown : ModelSource :=
  { coef := some [2], intercept := some 1,
    scaler_mean := some [0], scaler_scale := some [1] }

/-- A partial document: a two-entry `coef` array and no other keys. -/
def srcCoefOnly : ModelSource :=
  { coef := some [1, 2], intercept := none,
    scaler_mean := none, scaler_scale := none }

/-- An artifact document with an empty coefficient array. -/
def srcEmpty : ModelSource :=
  { coef := some [], intercept := some 0,
    scaler_mean := some [], scaler_scale := some [] }

/-- The state after successfully loading the known-value artifact. -/
def stateKnown : ImpactModel := (loadModel initState (some srcKnown)).2

/-- A loaded one-feature model whose scaler scale sits exactly at the
`1e-6` guard threshold, so the guard rejects it. -/
def modelGuard : ImpactModel :=
  { loaded_ := true, n_features_ := 1, coefficients_ := [2],
    intercept_ := 0, scaler_mean_ := [0], scaler_scale_ := [1e-6] }

/-- Proof helper: the dimension-validation gate at the end of `loadModel`
(impact_model.cpp lines 56-67), applied to the state after the four
field-extraction blocks. -/
def validateGate (st : ImpactModel) : Bool × ImpactModel :=
  if st.n_features_ = 0 ∨ st.scaler_mean_.length ≠ st.n_features_ ∨
      st.scaler_scale_.length ≠ st.n_features_ then
    (false, st)
  else
    (true, { st with loaded_ := true })

/-- Proof helper: the state after the four field-extraction blocks of
`loadModel` (impact_model.cpp lines 29-57) on a parsed document `j`:
present keys replace their field, absent keys keep the prior value, and
`n_features_` is set to the coefficient count. -/
def extractState (m : ImpactModel) (j : ModelSource) : ImpactModel :=
  { loaded_ := m.loaded_,
    n_features_ := (j.coef.getD m.coefficients_).length,
    coefficients_ := j.coef.getD m.coefficients_,
    intercept_ := j.intercept.getD m.intercept_,
    scaler_mean_ := j.scaler_mean.getD m.scaler_mean_,
    scaler_scale_ := j.scaler_scale.getD m.scaler_scale_ }

lemma loadModel_some_eq (m : ImpactModel) (j : ModelSource) :
    loadModel m (some j) = validateGate (extractState m j) := by
  rcases j with ⟨c, ic, sm, ss⟩
  cases c <;> cases ic <;> cases sm <;> cases ss <;> rfl

lemma validateGate_fst_true_loaded (st : ImpactModel)
    (h : (validateGate st).1 = true) : ((validateGate st).2).loaded_ = true := by
  unfold validateGate at h ⊢
  split at h <;> simp_all

lemma validateGate_fst_false_loaded (st : ImpactModel)
    (h : (validateGate st).1 = false) :
    ((validateGate st).2).loaded_ = st.loaded_ := by
  unfold validateGate at h ⊢
  split at h <;> simp_all

lemma loadModel_fst_true_loaded (m : ImpactModel) (input : Option ModelSource)
    (h : (loadModel m input).1 = true) :
    ((loadModel m input).2).loaded_ = true := by
  cases input with
  | none => simp [loadModel] at h
  | some j =>
    rw [loadModel_some_eq] at h ⊢
    exact validateGate_fst_true_loaded _ h

lemma loadModel_fst_false_loaded (m : ImpactModel) (input : Option ModelSource)
    (h : (loadModel m input).1 = false) :
    ((loadModel m input).2).loaded_ = m.loaded_ := by
  cases input with
  | none => rfl
  | some j =>
    rw [loadModel_some_eq] at h ⊢
    exact validateGate_fst_false_loaded _ h

lemma predict_of_unloaded (m : ImpactModel) (f : List ℚ)
    (h : m.loaded_ = false) : predict m f = 0 := by
  simp [predict, h]

/-- Claim C10: if the artifact file cannot be opened, `loadModel` returns
`false` and leaves every field of the artifact unchanged. -/
theorem C10_load_open_failure_frame (m : ImpactModel) :
    loadModel m none = (false, m) := rfl

/-- Claim C3: whenever the model is not loaded, or the feature vector length
differs from `n_features_`, `predict` returns exactly `0.0`, and in the
checked semantics no element of any vector is ever accessed (the result is
`some 0` with no indexing performed). -/
theorem C3_predict_precondition_zero (m : ImpactModel) (f : List ℚ)
    (h : m.loaded_ = false ∨ f.length ≠ m.n_features_) :
    predict m f = 0 ∧ predictChecked m f = some 0 := by
  rcases h with h | h
  · simp [predict, predictChecked, h]
  · by_cases hl : m.loaded_ = false <;> simp [predict, predictChecked, h, hl]

theorem C3_witness :
    (initState.loaded_ = false ∨ ([(1 : ℚ)].length ≠ initState.n_features_)) ∧
    (predict initState [1] = 0 ∧ predictChecked initState [1] = some 0) :=
  ⟨Or.inl rfl, C3_predict_precondition_zero initState [1] (Or.inl rfl)⟩

/-- Claim C1 (counterexample): a failed `loadModel` call does NOT always
leave the artifact observably unchanged. After a successful one-feature load,
a second load whose document has a two-entry `coef` array and no scaler keys
fails validation, yet `getNumFeatures` changes from 1 to 2. -/
theorem C1_counterexample :
    (loadModel (loadModel initState (some srcKnown)).2 (some srcCoefOnly)).1
      = false ∧
    getNumFeatures
        (loadModel (loadModel initState (some srcKnown)).2 (some srcCoefOnly)).2
      ≠ getNumFeatures (loadModel initState (some srcKnown)).2 := by
  decide

/-- Claim C1 (amended): if `loadModel` fails, `isLoaded` is unchanged, and on
an artifact that was unloaded before the call `predict` still returns `0.0`
for every input; the remaining fields, however, may be partially updated,
observably through `getNumFeatures`. -/
theorem C1_amended_load_failure_frame (m : ImpactModel)
    (input : Option ModelSource) (f : List ℚ)
    (h : (loadModel m input).1 = false) :
    isLoaded (loadModel m input).2 = isLoaded m ∧
    (isLoaded m = false → predict (loadModel m input).2 f = 0) := by
  refine ⟨loadModel_fst_false_loaded m input h, fun hu => ?_⟩
  exact predict_of_unloaded _ _
    ((loadModel_fst_false_loaded m input h).trans hu)

theorem C1_amended_witness :
    (loadModel initState none).1 = false ∧
    (isLoaded (loadModel initState none).2 = isLoaded initState ∧
     (isLoaded initState = false → predict (loadModel initState none).2 [1] = 0)) :=
  ⟨rfl, C1_amended_load_failure_frame initState none [1] rfl⟩

/-- Claim C2 (violation witness): the claimed invariant fails on a reachable
state. Loading the known one-feature artifact succeeds; a subsequent load of
a document with `coef = [1, 2]` and no scaler keys returns `false` but leaves
`loaded_ = true` with `n_features_ = 2` while `scaler_mean_` still has
length 1 — and the checked semantics of `predict` then hits an out-of-bounds
vector access (`none`). -/
theorem C2_invariant_violation :
    (loadModel (loadModel initState (some srcKnown)).2 (some srcCoefOnly)).1
      = false ∧
    isLoaded
        (loadModel (loadModel initState (some srcKnown)).2 (some srcCoefOnly)).2
      = true ∧
    getNumFeatures
        (loadModel (loadModel initState (some srcKnown)).2 (some srcCoefOnly)).2
      = 2 ∧
    ((loadModel (loadModel initState (some srcKnown)).2
        (some srcCoefOnly)).2.scaler_mean_).length = 1 ∧
    predictChecked
        (loadModel (loadModel initState (some srcKnown)).2 (some srcCoefOnly)).2
        [1, 1]
      = none := by
  refine ⟨by decide, by decide, by decide, by decide, ?_⟩
  have h : (loadModel (loadModel initState (some srcKnown)).2
      (some srcCoefOnly)).2 =
      ({ loaded_ := true, n_features_ := 2, coefficients_ := [1, 2],
         intercept_ := 1, scaler_mean_ := [0], scaler_scale_ := [1] }) := rfl
  rw [h]
  simp [predictChecked, normalizeChecked, List.range_succ, List.mapM,
    List.mapM.loop]

/-- Claim C5: for a parsed document whose `coef` array is empty or whose
`scaler_mean` or `scaler_scale` array length differs from the `coef` length,
`loadModel` fails, and on a not-yet-loaded artifact `loaded_` remains
`false`. -/
theorem C5_load_validation (m : ImpactModel) (src : ModelSource)
    (cs ms ss : List ℚ) (hc : src.coef = some cs)
    (hm : src.scaler_mean = some ms) (hs : src.scaler_scale = some ss)
    (hbad : cs = [] ∨ ms.length ≠ cs.length ∨ ss.length ≠ cs.length)
    (hun : m.loaded_ = false) :
    (loadModel m (some src)).1 = false ∧
    ((loadModel m (some src)).2).loaded_ = false := by
  rw [loadModel_some_eq]
  unfold validateGate extractState
  rw [hc, hm, hs]
  simp only [Option.getD_some]
  have hcond : cs.length = 0 ∨ ms.length ≠ cs.length ∨ ss.length ≠ cs.length := by
    rcases hbad with h | h | h
    · left; simp [h]
    · right; left; exact h
    · right; right; exact h
  rw [if_pos hcond]
  exact ⟨rfl, hun⟩

theorem C5_witness :
    (srcEmpty.coef = some [] ∧ srcEmpty.scaler_mean = some [] ∧
     srcEmpty.scaler_scale = some [] ∧
     (([] : List ℚ) = [] ∨ ([] : List ℚ).length ≠ ([] : List ℚ).length ∨
      ([] : List ℚ).length ≠ ([] : List ℚ).length) ∧
     initState.loaded_ = false) ∧
    ((loadModel initState (some srcEmpty)).1 = false ∧
     ((loadModel initState (some srcEmpty)).2).loaded_ = false) :=
  ⟨⟨rfl, rfl, rfl, Or.inl rfl, rfl⟩,
   C5_load_validation initState srcEmpty [] [] [] rfl rfl rfl (Or.inl rfl) rfl⟩

/-- Claim C8: loading the artifact `coef=[2.0]`, `intercept=1.0`,
`scaler_mean=[0.0]`, `scaler_scale=[1.0]` succeeds, and `predict([3.0])`
then returns exactly `7.0`. -/
theorem C8_known_value :
    (loadModel initState (some srcKnown)).1 = true ∧
    predict (loadModel initState (some srcKnown)).2 [3] = 7 := by
  refine ⟨by decide, ?_⟩
  have h : (loadModel initState (some srcKnown)).2 =
      ({ loaded_ := true, n_features_ := 1, coefficients_ := [2],
         intercept_ := 1, scaler_mean_ := [0], scaler_scale_ := [1] }) := rfl
  rw [h]
  norm_num [predict, ImpactModel.normalize, normElem, List.range_succ]

lemma step_preserves_loaded (m : ImpactModel) (op : Op)
    (h : m.loaded_ = true) : (step m op).loaded_ = true := by
  cases op with
  | load input =>
    cases hb : (loadModel m input).1 with
    | true => exact loadModel_fst_true_loaded m input hb
    | false => exact (loadModel_fst_false_loaded m input hb).trans h
  | pred f => exact h

lemma run_preserves_loaded (ops : List Op) :
    ∀ (m : ImpactModel), m.loaded_ = true → (run m ops).loaded_ = true := by
  induction ops with
  | nil => intro m h; exact h
  | cons op t ih =>
    intro m h
    exact ih (step m op) (step_preserves_loaded m op h)

/-- Claim C7: the artifact starts unloaded; once `isLoaded` is `true` it
stays `true` across every further sequence of `loadModel` and `predict`
calls; a `loadModel` call that turns `isLoaded` from `false` to `true`
necessarily returned success; and `predict` never changes `isLoaded`. -/
theorem C7_loaded_terminal :
    isLoaded initState = false ∧
    (∀ (m : ImpactModel) (ops : List Op),
      isLoaded m = true → isLoaded (run m ops) = true) ∧
    (∀ (m : ImpactModel) (input : Option ModelSource),
      isLoaded m = false → isLoaded (step m (Op.load input)) = true →
        (loadModel m input).1 = true) ∧
    (∀ (m : ImpactModel) (f : List ℚ),
      isLoaded (step m (Op.pred f)) = isLoaded m) := by
  refine ⟨rfl, fun m ops h => run_preserves_loaded ops m h, ?_, fun m f => rfl⟩
  intro m input hfalse htrue
  cases hb : (loadModel m input).1 with
  | true => rfl
  | false =>
    exfalso
    have : isLoaded (step m (Op.load input)) = false :=
      (loadModel_fst_false_loaded m input hb).trans hfalse
    rw [htrue] at this
    exact Bool.true_eq_false.mp this

theorem C7_witness :
    (isLoaded stateKnown = true ∧
     isLoaded (run stateKnown [Op.load none, Op.pred [5]]) = true) ∧
    (isLoaded initState = false ∧
     isLoaded (step initState (Op.load (some srcKnown))) = true ∧
     (loadModel initState (some srcKnown)).1 = true) ∧
    isLoaded (step stateKnown (Op.pred [3])) = isLoaded stateKnown :=
  ⟨⟨by decide,
    C7_loaded_terminal.2.1 stateKnown [Op.load none, Op.pred [5]] (by decide)⟩,
   ⟨by decide, by decide,
    C7_loaded_terminal.2.2.1 initState (some srcKnown) (by decide) (by decide)⟩,
   C7_loaded_terminal.2.2.2 stateKnown [3]⟩

lemma foldl_range_add (g : ℕ → ℚ) (n : ℕ) : ∀ (init : ℚ),
    (List.range n).foldl (fun acc i => acc + g i) init =
      init + ∑ i ∈ Finset.range n, g i := by
  induction n with
  | zero => intro init; simp
  | succ k ih =>
    intro init
    rw [List.range_succ, List.foldl_append, ih, Finset.sum_range_succ,
      List.foldl_cons, List.foldl_nil]
    ring

lemma getD_map_range (g : ℕ → ℚ) {n i : ℕ} (h : i < n) :
    ((List.range n).map g).getD i 0 = g i := by
  have h' : i < ((List.range n).map g).length := by simpa using h
  rw [List.getD_eq_getElem _ _ h']
  simp

lemma normalize_length (m : ImpactModel) (f : List ℚ) :
    (m.normalize f).length = m.n_features_ := by
  simp [ImpactModel.normalize]

lemma normalize_getD (m : ImpactModel) (f : List ℚ) {i : ℕ}
    (h : i < m.n_features_) : (m.normalize f).getD i 0 = normElem m f i := by
  unfold ImpactModel.normalize
  exact getD_map_range _ h

lemma predict_loaded_eq (m : ImpactModel) (f : List ℚ)
    (hl : m.loaded_ = true) (hf : f.length = m.n_features_) :
    predict m f = m.intercept_ + ∑ i ∈ Finset.range m.n_features_,
      m.coefficients_.getD i 0 * normElem m f i := by
  unfold predict
  rw [if_neg (by simp [hl]), if_neg (by simp [hf])]
  show (List.range (m.normalize f).length).foldl
      (fun acc i => acc + m.coefficients_.getD i 0 * (m.normalize f).getD i 0)
      m.intercept_ = _
  rw [normalize_length,
    foldl_range_add (fun i => m.coefficients_.getD i 0 * (m.normalize f).getD i 0)]
  exact congrArg (m.intercept_ + ·)
    (Finset.sum_congr rfl fun i hi => by
      rw [normalize_getD m f (Finset.mem_range.1 hi)])

/-- Claim C4: on a loaded model with consistent lengths and a feature vector
of matching length, `predict` returns the intercept plus the sum over all
indices of coefficient times the standardized feature, where standardization
divides by the scaler scale only when it exceeds `1e-6` and yields `0`
otherwise; the loop accumulates in index order, which over the exact-number
embedding equals this sum. -/
theorem C4_predict_formula (m : ImpactModel) (f : List ℚ)
    (hl : m.loaded_ = true)
    (hc : m.coefficients_.length = m.n_features_)
    (hm : m.scaler_mean_.length = m.n_features_)
    (hs : m.scaler_scale_.length = m.n_features_)
    (hf : f.length = m.n_features_) :
    predict m f = m.intercept_ + ∑ i ∈ Finset.range m.n_features_,
      m.coefficients_.getD i 0 *
        (if (1e-6 : ℚ) < m.scaler_scale_.getD i 0 then
          (f.getD i 0 - m.scaler_mean_.getD i 0) / m.scaler_scale_.getD i 0
        else 0) := by
  rw [predict_loaded_eq m f hl hf]
  simp only [normElem]

theorem C4_witness :
    (stateKnown.loaded_ = true ∧
     stateKnown.coefficients_.length = stateKnown.n_features_ ∧
     stateKnown.scaler_mean_.length = stateKnown.n_features_ ∧
     stateKnown.scaler_scale_.length = stateKnown.n_features_ ∧
     [(3 : ℚ)].length = stateKnown.n_features_) ∧
    predict stateKnown [3] = stateKnown.intercept_ +
      ∑ i ∈ Finset.range stateKnown.n_features_,
        stateKnown.coefficients_.getD i 0 *
          (if (1e-6 : ℚ) < stateKnown.scaler_scale_.getD i 0 then
            ([(3 : ℚ)].getD i 0 - stateKnown.scaler_mean_.getD i 0) /
              stateKnown.scaler_scale_.getD i 0
          else 0) :=
  ⟨⟨by decide, by decide, by decide, by decide, by decide⟩,
   C4_predict_formula stateKnown [3] (by decide) (by decide) (by decide)
     (by decide) (by decide)⟩

/-- Claim C6: on a loaded model with consistent lengths, if the scaler scale
at index `i` is at most `1e-6`, two matching-length feature vectors that
agree everywhere except possibly at index `i` get the same prediction: the
guard zeroes that feature's contribution regardless of its value. -/
theorem C6_guard_noninterference (m : ImpactModel) (i : ℕ) (f g : List ℚ)
    (hl : m.loaded_ = true)
    (hc : m.coefficients_.length = m.n_features_)
    (hm : m.scaler_mean_.length = m.n_features_)
    (hs : m.scaler_scale_.length = m.n_features_)
    (hf : f.length = m.n_features_) (hg : g.length = m.n_features_)
    (hscale : m.scaler_scale_.getD i 0 ≤ (1e-6 : ℚ))
    (hdiff : ∀ j, j ≠ i → f.getD j 0 = g.getD j 0) :
    predict m f = predict m g := by
  rw [predict_loaded_eq m f hl hf, predict_loaded_eq m g hl hg]
  refine congrArg (m.intercept_ + ·) (Finset.sum_congr rfl fun j _ => ?_)
  refine congrArg (m.coefficients_.getD j 0 * ·) ?_
  unfold normElem
  by_cases hji : j = i
  · subst hji
    rw [if_neg (not_lt.2 hscale), if_neg (not_lt.2 hscale)]
  · rw [hdiff j hji]

theorem C6_witness :
    (modelGuard.loaded_ = true ∧
     modelGuard.coefficients_.length = modelGuard.n_features_ ∧
     modelGuard.scaler_mean_.length = modelGuard.n_features_ ∧
     modelGuard.scaler_scale_.length = modelGuard.n_features_ ∧
     [(3 : ℚ)].length = modelGuard.n_features_ ∧
     [(4 : ℚ)].length = modelGuard.n_features_ ∧
     modelGuard.scaler_scale_.getD 0 0 ≤ (1e-6 : ℚ)) ∧
    predict modelGuard [3] = predict modelGuard [4] :=
  ⟨⟨by decide, by decide, by decide, by decide, by decide, by decide,
    le_refl (1e-6 : ℚ)⟩,
   C6_guard_noninterference modelGuard 0 [3] [4] (by decide) (by decide)
     (by decide) (by decide) (by decide) (by decide) (le_refl (1e-6 : ℚ))
     (fun j hj => match j, hj with
      | 0, hj => absurd rfl hj
      | Nat.succ k, _ => rfl)⟩

lemma get?_eq_some_getD (l : List ℚ) (i : ℕ) (h : i < l.length) :
    l.get? i = some (l.getD i 0) := by
  rw [List.getD_eq_getElem _ _ h, List.get?_eq_getElem?,
    List.getElem?_eq_getElem h]

lemma mapM_eq_some (F : ℕ → Option ℚ) (G : ℕ → ℚ) :
    ∀ (l : List ℕ), (∀ i ∈ l, F i = some (G i)) →
      l.mapM F = some (l.map G) := by
  intro l
  induction l with
  | nil => intro _; rfl
  | cons a t ih =>
    intro h
    rw [List.mapM_cons, h a (List.mem_cons_self a t),
      ih fun i hi => h i (List.mem_cons_of_mem a hi)]
    rfl

lemma foldlM_eq_some (F : ℚ → ℕ → Option ℚ) (G : ℚ → ℕ → ℚ) :
    ∀ (l : List ℕ), (∀ i ∈ l, ∀ acc, F acc i = some (G acc i)) →
      ∀ (init : ℚ), l.foldlM F init = some (l.foldl G init) := by
  intro l
  induction l with
  | nil => intro _ init; rfl
  | cons a t ih =>
    intro h init
    rw [List.foldlM_cons, h a (List.mem_cons_self a t) init, List.foldl_cons]
    exact ih (fun i hi acc => h i (List.mem_cons_of_mem a hi) acc) (G init a)

lemma normalizeChecked_eq_some (m : ImpactModel) (f : List ℚ)
    (hm : m.scaler_mean_.length = m.n_features_)
    (hs : m.scaler_scale_.length = m.n_features_)
    (hf : f.length = m.n_features_) :
    normalizeChecked m f = some (m.normalize f) := by
  unfold normalizeChecked ImpactModel.normalize
  apply mapM_eq_some
  intro i hi
  have hi' : i < m.n_features_ := List.mem_range.mp hi
  show (m.scaler_scale_.get? i).bind _ = _
  rw [get?_eq_some_getD _ _ (hs ▸ hi')]
  show (if (1e-6 : ℚ) < m.scaler_scale_.getD i 0 then _ else _) = _
  by_cases hcmp : (1e-6 : ℚ) < m.scaler_scale_.getD i 0
  · rw [if_pos hcmp]
    show (f.get? i).bind _ = _
    rw [get?_eq_some_getD _ _ (hf ▸ hi')]
    show (m.scaler_mean_.get? i).bind _ = _
    rw [get?_eq_some_getD _ _ (hm ▸ hi')]
    show some _ = _
    rw [normElem, if_pos hcmp]
  · rw [if_neg hcmp]
    show some 0 = _
    rw [normElem, if_neg hcmp]

/-- Claim C9: under the precondition that the model is loaded, the feature
vector has length `n_features_`, and the three parameter vectors each have
length `n_features_`, every element access made by `predict` and `normalize`
is in bounds: the `Option`-indexed embedding returns `some` of the value the
unchecked embedding computes, never `none`. -/
theorem C9_checked_inbounds (m : ImpactModel) (f : List ℚ)
    (hl : m.loaded_ = true)
    (hc : m.coefficients_.length = m.n_features_)
    (hm : m.scaler_mean_.length = m.n_features_)
    (hs : m.scaler_scale_.length = m.n_features_)
    (hf : f.length = m.n_features_) :
    predictChecked m f = some (predict m f) := by
  unfold predictChecked predict
  rw [if_neg (by simp [hl]), if_neg (by simp [hf]),
    if_neg (by simp [hl]), if_neg (by simp [hf])]
  show (normalizeChecked m f).bind _ = _
  rw [normalizeChecked_eq_some m f hm hs hf]
  show (List.range (m.normalize f).length).foldlM _ m.intercept_ = _
  apply foldlM_eq_some
  intro i hi acc
  have hi' : i < m.n_features_ := by
    have := List.mem_range.mp hi
    rwa [normalize_length] at this
  show (m.coefficients_.get? i).bind _ = _
  rw [get?_eq_some_getD _ _ (hc ▸ hi')]
  show ((m.normalize f).get? i).bind _ = _
  rw [get?_eq_some_getD _ _ ((normalize_length m f).symm ▸ hi')]
  rfl

theorem C9_witness :
    (stateKnown.loaded_ = true ∧
     stateKnown.coefficients_.length = stateKnown.n_features_ ∧
     stateKnown.scaler_mean_.length = stateKnown.n_features_ ∧
     stateKnown.scaler_scale_.length = stateKnown.n_features_ ∧
     [(3 : ℚ)].length = stateKnown.n_features_) ∧
    predictChecked stateKnown [3] = some (predict stateKnown [3]) :=
  ⟨⟨by decide, by decide, by decide, by decide, by decide⟩,
   C9_checked_inbounds stateKnown [3] (by decide) (by decide) (by decide)
     (by decide) (by decide)⟩
